import Mathlib

/-!
Shallow embedding of `src/scim_syncer.py` (azure-scim-syncer).

The script orchestrates sequential calls against the Microsoft Graph API.
We model the remote API (and the two environment variables read by the
script) as an `Env` of oracles: each remote operation either returns a
value or raises an exception carrying a message (`Res`).  Each Python
function becomes a Lean function returning the list of observable events
it performs (remote calls and the decision-relevant log lines) together
with its outcome.  Purely informational log lines are elided from the
trace; every remote call and every error/abort log at a decision point is
kept, so that frame and error-propagation properties are expressible.
-/

namespace ScimSyncer

/-- Outcome of one awaited operation: a returned value, or a raised
exception carrying its message (Python `raise`). -/
inductive Res (α : Type) where
  | ok : α → Res α
  | err : String → Res α
deriving DecidableEq

/-- True when the operation returned normally. -/
def Res.isOk {α : Type} : Res α → Bool
  | .ok _ => true
  | .err _ => false

/-- Value of an operation result, with a default for the error case. -/
def Res.getD {α : Type} : Res α → α → α
  | .ok v, _ => v
  | .err _, d => d

/-- Python str.lower modelled character-wise (ASCII case folding), kept
kernel-reducible. -/
def strLower (s : String) : String := String.mk (s.data.map Char.toLower)

/-- Python truthiness of an `Optional[str]`: `None` and `""` are falsy. -/
def truthy : Option String → Bool
  | none => false
  | some s => s != ""

/-- One element of the `servicePrincipals` response (`value` list); the
code only reads its `id` field. -/
structure ServicePrincipal where
  id : Option String
deriving DecidableEq

/-- One element of the synchronization-jobs response; the code only reads
its `id` field. -/
structure SyncJob where
  id : Option String
deriving DecidableEq

/-- One element of the `appRoleAssignedTo` response, filtered to
principal-type Group by the query. -/
structure Assignment where
  principal_id : Option String
  principal_display_name : Option String
deriving DecidableEq

/-- One element of the group-members response; the code only reads `id`
(the other selected fields feed log lines only). -/
structure Member where
  id : Option String
deriving DecidableEq

/-- Entry of the list built by `get_assigned_groups`
(the Python dict with keys id and displayName). -/
structure GroupInfo where
  id : String
  displayName : Option String
deriving DecidableEq

/-- Observable events: every remote call the script issues, and the
decision-relevant log lines (aborts, caught errors, branch selection). -/
inductive Event where
  | callGetClient
  | callGetServicePrincipals (appId : String)
  | callListSyncJobs (spId : String)
  | callStartJob (spId jobId : String)
  | callListAssignedGroups (spId : String)
  | callListGroupMembers (groupId : String)
  | callProvisionOnDemand (spId jobId userId objType : String)
  | logMainMissingAppId
  | logMainSpNotFound (appId : String)
  | logMainJobNotFound (spId : String)
  | logMainSuccess
  | logMainError (msg : String)
  | logOnDemandSpNotFound (appId : String)
  | logOnDemandJobNotFound (spId : String)
  | logNoGroups (appId spId : String)
  | logNoMembers (groupId : String)
  | logUserProvisionError (userId groupId msg : String)
  | logCliMissingAppId
  | logOnDemandTopError (msg : String)
  | logMainSelected
  | logOnDemandSelected
deriving DecidableEq

/-- The environment: the two environment variables the script reads, and
one oracle per remote operation (argument-indexed responses). -/
structure Env where
  azure_app_id : Option String
  run_on_demand : Option String
  getClient : Res Unit
  servicePrincipals : String → Res (List ServicePrincipal)
  syncJobs : String → Res (List SyncJob)
  startJob : String → String → Res Unit
  assignedGroups : String → Res (List Assignment)
  groupMembers : String → Res (List Member)
  provisionOnDemand : String → String → String → String → Res Unit

/-- Embedding of `get_graph_client`: authenticates and builds the client;
any failure is re-raised. -/
def get_graph_client (env : Env) : List Event × Res Unit :=
  ([Event.callGetClient], env.getClient)

/-- Embedding of `get_service_principal_id`: filtered lookup by app id;
returns the first result's id, `none` if the result set is empty, and
re-raises any remote error. -/
def get_service_principal_id (env : Env) (app_id : String) :
    List Event × Res (Option String) :=
  ([Event.callGetServicePrincipals app_id],
   match env.servicePrincipals app_id with
   | .ok sps =>
     match sps with
     | [] => .ok none
     | sp :: _ => .ok sp.id
   | .err e => .err e)

/-- Embedding of `get_synchronization_job_id`: lists the principal's
synchronization jobs; returns the first entry's id, `none` on an empty
list, and re-raises any remote error. -/
def get_synchronization_job_id (env : Env) (sp_id : String) :
    List Event × Res (Option String) :=
  ([Event.callListSyncJobs sp_id],
   match env.syncJobs sp_id with
   | .ok jobs =>
     match jobs with
     | [] => .ok none
     | j :: _ => .ok j.id
   | .err e => .err e)

/-- Embedding of `start_synchronization_job`: fire-and-forget start
request; re-raises any remote error. -/
def start_synchronization_job (env : Env) (sp_id job_id : String) :
    List Event × Res Unit :=
  ([Event.callStartJob sp_id job_id], env.startJob sp_id job_id)

/-- Loop body of `get_assigned_groups`: keeps assignments with a truthy
`principal_id`, building the id/displayName records in order. -/
def collect_groups : List Assignment → List GroupInfo
  | [] => []
  | a :: rest =>
    if truthy a.principal_id then
      { id := a.principal_id.getD "", displayName := a.principal_display_name }
        :: collect_groups rest
    else collect_groups rest

/-- Embedding of `get_assigned_groups`: lists app-role assignments
(filtered to principal-type Group by the query), collects id/displayName
of each assignment with a truthy principal id; re-raises remote errors. -/
def get_assigned_groups (env : Env) (sp_id : String) :
    List Event × Res (List GroupInfo) :=
  ([Event.callListAssignedGroups sp_id],
   match env.assignedGroups sp_id with
   | .ok asg => .ok (collect_groups asg)
   | .err e => .err e)

/-- Loop body of `get_group_members`: keeps the ids of members whose `id`
is truthy, in order. -/
def collect_member_ids : List Member → List String
  | [] => []
  | m :: rest =>
    if truthy m.id then m.id.getD "" :: collect_member_ids rest
    else collect_member_ids rest

/-- Embedding of `get_group_members`: lists a group's members and collects
the truthy member ids; re-raises remote errors. -/
def get_group_members (env : Env) (group_id : String) :
    List Event × Res (List String) :=
  ([Event.callListGroupMembers group_id],
   match env.groupMembers group_id with
   | .ok ms => .ok (collect_member_ids ms)
   | .err e => .err e)

/-- Embedding of `provision_user_on_demand`: posts a provisionOnDemand
request whose subject carries the user id and the hardcoded object-type
tag `"User"`; re-raises any remote error. -/
def provision_user_on_demand (env : Env) (sp_id job_id user_id : String) :
    List Event × Res Unit :=
  ([Event.callProvisionOnDemand sp_id job_id user_id "User"],
   env.provisionOnDemand sp_id job_id user_id "User")

/-- Inner per-user loop of `provision_all_users_on_demand_in_app`: each
trigger is wrapped in its own try/except, so a failure is logged (with the
user id and group id) and iteration continues; the loop never raises. -/
def provision_users_in_group (env : Env) (sp_id job_id group_id : String) :
    List String → List Event
  | [] => []
  | u :: rest =>
    match provision_user_on_demand env sp_id job_id u with
    | (ev, .ok _) =>
      ev ++ provision_users_in_group env sp_id job_id group_id rest
    | (ev, .err e) =>
      ev ++ [Event.logUserProvisionError u group_id e]
        ++ provision_users_in_group env sp_id job_id group_id rest

/-- Outer per-group loop of `provision_all_users_on_demand_in_app`: a
group's member fetch is NOT wrapped, so its error aborts the whole loop;
an empty member list is logged and skipped. -/
def fanout_groups (env : Env) (sp_id job_id : String) :
    List GroupInfo → List Event × Res Unit
  | [] => ([], .ok ())
  | g :: rest =>
    match get_group_members env g.id with
    | (ev1, .err e) => (ev1, .err e)
    | (ev1, .ok users) =>
      if users.isEmpty then
        match fanout_groups env sp_id job_id rest with
        | (evr, r) => (ev1 ++ [Event.logNoMembers g.id] ++ evr, r)
      else
        match fanout_groups env sp_id job_id rest with
        | (evr, r) =>
          (ev1 ++ provision_users_in_group env sp_id job_id g.id users ++ evr, r)

/-- Embedding of `provision_all_users_on_demand_in_app`: resolve the
service principal and sync job (clean early return when not found), fetch
the assigned groups (clean early return when empty), then run the
per-group fan-out.  Unhandled errors from the resolvers, the group listing
or a member fetch propagate to the caller. -/
def provision_all_users_on_demand_in_app (env : Env) (app_id : String) :
    List Event × Res Unit :=
  match get_service_principal_id env app_id with
  | (ev1, .err e) => (ev1, .err e)
  | (ev1, .ok spOpt) =>
    if ! truthy spOpt then
      (ev1 ++ [Event.logOnDemandSpNotFound app_id], .ok ())
    else
      let sp_id := spOpt.getD ""
      match get_synchronization_job_id env sp_id with
      | (ev2, .err e) => (ev1 ++ ev2, .err e)
      | (ev2, .ok jobOpt) =>
        if ! truthy jobOpt then
          (ev1 ++ ev2 ++ [Event.logOnDemandJobNotFound sp_id], .ok ())
        else
          let job_id := jobOpt.getD ""
          match get_assigned_groups env sp_id with
          | (ev3, .err e) => (ev1 ++ ev2 ++ ev3, .err e)
          | (ev3, .ok groups) =>
            if groups.isEmpty then
              (ev1 ++ ev2 ++ ev3 ++ [Event.logNoGroups app_id sp_id], .ok ())
            else
              match fanout_groups env sp_id job_id groups with
              | (ev4, r) => (ev1 ++ ev2 ++ ev3 ++ ev4, r)

/-- Body of `main`'s try block: read the app id from configuration (abort
if falsy), acquire the client, resolve the service principal and job
(abort on not-found), start the job.  Errors from the awaited calls
propagate to the surrounding except. -/
def main_try (env : Env) : List Event × Res Unit :=
  if ! truthy env.azure_app_id then
    ([Event.logMainMissingAppId], .ok ())
  else
    let app_id := env.azure_app_id.getD ""
    match get_graph_client env with
    | (ev1, .err e) => (ev1, .err e)
    | (ev1, .ok _) =>
      match get_service_principal_id env app_id with
      | (ev2, .err e) => (ev1 ++ ev2, .err e)
      | (ev2, .ok spOpt) =>
        if ! truthy spOpt then
          (ev1 ++ ev2 ++ [Event.logMainSpNotFound app_id], .ok ())
        else
          let sp_id := spOpt.getD ""
          match get_synchronization_job_id env sp_id with
          | (ev3, .err e) => (ev1 ++ ev2 ++ ev3, .err e)
          | (ev3, .ok jobOpt) =>
            if ! truthy jobOpt then
              (ev1 ++ ev2 ++ ev3 ++ [Event.logMainJobNotFound sp_id], .ok ())
            else
              let job_id := jobOpt.getD ""
              match start_synchronization_job env sp_id job_id with
              | (ev4, .err e) => (ev1 ++ ev2 ++ ev3 ++ ev4, .err e)
              | (ev4, .ok _) =>
                (ev1 ++ ev2 ++ ev3 ++ ev4 ++ [Event.logMainSuccess], .ok ())

/-- Embedding of `main`: the whole body sits in one try/except whose
except clause logs and suppresses, so `main` itself never raises. -/
def main (env : Env) : List Event × Res Unit :=
  match main_try env with
  | (ev, .ok _) => (ev, .ok ())
  | (ev, .err e) => (ev ++ [Event.logMainError e], .ok ())

/-- Body of the dispatcher's on-demand try block: acquire the client, then
run the fan-out; errors from either propagate to the surrounding except. -/
def cli_on_demand_try (env : Env) (app_id : String) : List Event × Res Unit :=
  match get_graph_client env with
  | (ev1, .err e) => (ev1, .err e)
  | (ev1, .ok _) =>
    match provision_all_users_on_demand_in_app env app_id with
    | (ev2, r) => (ev1 ++ ev2, r)

/-- Embedding of `cli_entry_point`: selects the on-demand fan-out when the
flag (defaulting to "false") lowercases to "true" — requiring the app id
first, aborting with a log when it is falsy, and catching every error of
the on-demand branch — and otherwise runs `main`. -/
def cli_entry_point (env : Env) : List Event × Res Unit :=
  if strLower (env.run_on_demand.getD "false") = "true" then
    if ! truthy env.azure_app_id then
      ([Event.logOnDemandSelected, Event.logCliMissingAppId], .ok ())
    else
      let app_id := env.azure_app_id.getD ""
      match cli_on_demand_try env app_id with
      | (ev, .ok _) => (Event.logOnDemandSelected :: ev, .ok ())
      | (ev, .err e) =>
        (Event.logOnDemandSelected :: (ev ++ [Event.logOnDemandTopError e]), .ok ())
  else
    match main env with
    | (ev, r) => (Event.logMainSelected :: ev, r)

/-- Predicate picking out provisionOnDemand call events in a trace. -/
def isProvisionCall : Event → Bool
  | .callProvisionOnDemand _ _ _ _ => true
  | _ => false

/-- Predicate picking out the remote directory operations (lookup, job
listing, start, assignment listing, member listing, provision trigger). -/
def isRemoteCall : Event → Bool
  | .callGetServicePrincipals _ => true
  | .callListSyncJobs _ => true
  | .callStartJob _ _ => true
  | .callListAssignedGroups _ => true
  | .callListGroupMembers _ => true
  | .callProvisionOnDemand _ _ _ _ => true
  | _ => false

/-- Number of provisionOnDemand calls in a trace whose subject is `u`. -/
def provisionCallsFor : List Event → String → Nat
  | [], _ => 0
  | Event.callProvisionOnDemand _ _ uid _ :: rest, u =>
    (if uid = u then 1 else 0) + provisionCallsFor rest u
  | _ :: rest, u => provisionCallsFor rest u

/-- Member ids the environment yields for a group (empty on error). -/
def memList (env : Env) (g : GroupInfo) : List String :=
  collect_member_ids ((env.groupMembers g.id).getD [])

/-- Expected sequence of provisioning calls for a group list: one call per
member occurrence, in listing order, tagged "User". -/
def userCalls (env : Env) (sp_id job_id : String) : List GroupInfo → List Event
  | [] => []
  | g :: rest =>
    (memList env g).map (fun u => Event.callProvisionOnDemand sp_id job_id u "User")
      ++ userCalls env sp_id job_id rest

/-- Total number of occurrences of user `u` across the member lists of a
group list. -/
def occTotal (env : Env) (u : String) : List GroupInfo → Nat
  | [] => 0
  | g :: rest => (memList env g).count u + occTotal env u rest

/-- Happy-path environment: app "app-1" resolves to SP "sp-1" with one job
"job-1", two assigned groups g1 (member u1) and g2 (member u2), and all
remote calls succeed. -/
def happyEnv : Env where
  azure_app_id := some "app-1"
  run_on_demand := some "true"
  getClient := .ok ()
  servicePrincipals := fun a =>
    .ok (if a = "app-1" then [{ id := some "sp-1" }] else [])
  syncJobs := fun s => .ok (if s = "sp-1" then [{ id := some "job-1" }] else [])
  startJob := fun _ _ => .ok ()
  assignedGroups := fun s =>
    .ok (if s = "sp-1" then
      [{ principal_id := some "g1", principal_display_name := some "Group One" },
       { principal_id := some "g2", principal_display_name := none }] else [])
  groupMembers := fun g =>
    .ok (if g = "g1" then [{ id := some "u1" }]
         else if g = "g2" then [{ id := some "u2" }] else [])
  provisionOnDemand := fun _ _ _ _ => .ok ()

/-- Variant of `happyEnv` with no synchronization jobs. -/
def noJobsEnv : Env :=
  { happyEnv with syncJobs := fun _ => .ok [] }

/-- Variant of `happyEnv` where the service-principal lookup result set is
empty. -/
def noSpEnv : Env :=
  { happyEnv with servicePrincipals := fun _ => .ok [] }

/-- Variant of `happyEnv` where the service-principal lookup raises. -/
def spErrEnv : Env :=
  { happyEnv with servicePrincipals := fun _ => .err "boom" }

/-- Variant of `happyEnv`: g1 holds u1 and u2, g2 holds u3, and the
provisioning trigger fails for u1 only. -/
def provFailEnv : Env :=
  { happyEnv with
    groupMembers := fun g =>
      .ok (if g = "g1" then [{ id := some "u1" }, { id := some "u2" }]
           else if g = "g2" then [{ id := some "u3" }] else []),
    provisionOnDemand := fun _ _ u _ =>
      if u = "u1" then .err "fail-u1" else .ok () }

/-- Variant of `happyEnv` with three groups where fetching g2's members
raises. -/
def memErrEnv : Env :=
  { happyEnv with
    assignedGroups := fun s =>
      .ok (if s = "sp-1" then
        [{ principal_id := some "g1", principal_display_name := none },
         { principal_id := some "g2", principal_display_name := none },
         { principal_id := some "g3", principal_display_name := none }] else []),
    groupMembers := fun g =>
      if g = "g2" then .err "net"
      else .ok (if g = "g1" then [{ id := some "u1" }]
                else if g = "g3" then [{ id := some "u3" }] else []) }

/-- Variant of `happyEnv` where u1 appears in both groups: g1 holds u1 and
u2, g2 holds u1 again. -/
def dupEnv : Env :=
  { happyEnv with
    groupMembers := fun g =>
      .ok (if g = "g1" then [{ id := some "u1" }, { id := some "u2" }]
           else if g = "g2" then [{ id := some "u1" }] else []) }

/-- Variant of `happyEnv` with the app id unset and the flag unset. -/
def noAppEnv : Env :=
  { happyEnv with azure_app_id := none, run_on_demand := none }

/-- Variant of `happyEnv` with zero group assignments. -/
def noGroupsEnv : Env :=
  { happyEnv with assignedGroups := fun _ => .ok [] }

lemma truthy_some {s : String} (h : s ≠ "") : truthy (some s) = true := by
  simp [truthy, h]

lemma filter_provision_users (env : Env) (sp_id job_id group_id : String)
    (us : List String) :
    (provision_users_in_group env sp_id job_id group_id us).filter isProvisionCall
      = us.map (fun u => Event.callProvisionOnDemand sp_id job_id u "User") := by
  induction us with
  | nil => simp [provision_users_in_group]
  | cons u rest ih =>
    simp only [provision_users_in_group, provision_user_on_demand]
    cases h : env.provisionOnDemand sp_id job_id u "User" <;>
      simp [List.filter_append, isProvisionCall, ih]

lemma fanout_ok_and_filter (env : Env) (sp_id job_id : String)
    (gs : List GroupInfo)
    (h : ∀ g ∈ gs, (env.groupMembers g.id).isOk = true) :
    (fanout_groups env sp_id job_id gs).2 = .ok () ∧
      (fanout_groups env sp_id job_id gs).1.filter isProvisionCall
        = userCalls env sp_id job_id gs := by
  induction gs with
  | nil => simp [fanout_groups, userCalls]
  | cons g rest ih =>
    have hg := h g (List.mem_cons_self g rest)
    have hrest := ih (fun x hx => h x (List.mem_cons_of_mem g hx))
    rcases hfr : fanout_groups env sp_id job_id rest with ⟨evr, r⟩
    rw [hfr] at hrest
    cases hm : env.groupMembers g.id with
    | err e => rw [hm] at hg; simp [Res.isOk] at hg
    | ok ms =>
      have hmem : memList env g = collect_member_ids ms := by
        simp [memList, hm, Res.getD]
      cases hms : collect_member_ids ms with
      | nil =>
        simp [fanout_groups, get_group_members, hm, hms, hfr, userCalls, hmem,
          List.filter_append, isProvisionCall, hrest.1, hrest.2]
      | cons u us =>
        simp [fanout_groups, get_group_members, hm, hms, hfr, userCalls, hmem,
          List.filter_append, isProvisionCall, hrest.1, hrest.2,
          filter_provision_users]

lemma provisionCallsFor_append (a b : List Event) (u : String) :
    provisionCallsFor (a ++ b) u = provisionCallsFor a u + provisionCallsFor b u := by
  induction a with
  | nil => simp [provisionCallsFor]
  | cons e rest ih =>
    cases e <;> simp [provisionCallsFor, ih] <;> omega

lemma provisionCallsFor_filter (tr : List Event) (u : String) :
    provisionCallsFor (tr.filter isProvisionCall) u = provisionCallsFor tr u := by
  induction tr with
  | nil => rfl
  | cons e rest ih => cases e <;> simp [provisionCallsFor, isProvisionCall, ih]

lemma provisionCallsFor_map (sp_id job_id : String) (us : List String) (u : String) :
    provisionCallsFor
        (us.map (fun v => Event.callProvisionOnDemand sp_id job_id v "User")) u
      = us.count u := by
  induction us with
  | nil => rfl
  | cons v rest ih =>
    simp [provisionCallsFor, ih, List.count_cons]
    by_cases h : v = u <;> simp [h] <;> omega

lemma provisionCallsFor_userCalls (env : Env) (sp_id job_id : String)
    (gs : List GroupInfo) (u : String) :
    provisionCallsFor (userCalls env sp_id job_id gs) u = occTotal env u gs := by
  induction gs with
  | nil => rfl
  | cons g rest ih =>
    simp [userCalls, occTotal, provisionCallsFor_append, provisionCallsFor_map, ih]

lemma fanout_append (env : Env) (sp_id job_id : String)
    (gs1 rest : List GroupInfo)
    (h : ∀ g ∈ gs1, (env.groupMembers g.id).isOk = true) :
    fanout_groups env sp_id job_id (gs1 ++ rest)
      = ((fanout_groups env sp_id job_id gs1).1
           ++ (fanout_groups env sp_id job_id rest).1,
         (fanout_groups env sp_id job_id rest).2) := by
  induction gs1 with
  | nil => simp [fanout_groups]
  | cons g gs ih =>
    have hg := h g (List.mem_cons_self g gs)
    have htail := ih (fun x hx => h x (List.mem_cons_of_mem g hx))
    cases hm : env.groupMembers g.id with
    | err e => rw [hm] at hg; simp [Res.isOk] at hg
    | ok ms =>
      rcases hgs : fanout_groups env sp_id job_id gs with ⟨evB, rB⟩
      rcases hr : fanout_groups env sp_id job_id rest with ⟨evC, rC⟩
      rw [hgs, hr] at htail
      cases hms : collect_member_ids ms with
      | nil =>
        simp [fanout_groups, get_group_members, hm, hms, htail, hgs, hr,
          List.append_assoc]
      | cons u us =>
        simp [fanout_groups, get_group_members, hm, hms, htail, hgs, hr,
          List.append_assoc]

lemma provision_all_reduce (env : Env) (app_id sp_id job_id : String)
    (spo : ServicePrincipal) (sps : List ServicePrincipal)
    (jo : SyncJob) (jobs : List SyncJob) (asg : List Assignment)
    (hsp : env.servicePrincipals app_id = .ok (spo :: sps))
    (hspi : spo.id = some sp_id) (hspne : sp_id ≠ "")
    (hjob : env.syncJobs sp_id = .ok (jo :: jobs))
    (hjobi : jo.id = some job_id) (hjobne : job_id ≠ "")
    (hgr : env.assignedGroups sp_id = .ok asg) :
    provision_all_users_on_demand_in_app env app_id =
      if (collect_groups asg).isEmpty then
        ([Event.callGetServicePrincipals app_id, Event.callListSyncJobs sp_id,
          Event.callListAssignedGroups sp_id, Event.logNoGroups app_id sp_id],
         .ok ())
      else
        (Event.callGetServicePrincipals app_id :: Event.callListSyncJobs sp_id ::
           Event.callListAssignedGroups sp_id ::
             (fanout_groups env sp_id job_id (collect_groups asg)).1,
         (fanout_groups env sp_id job_id (collect_groups asg)).2) := by
  rcases hf : fanout_groups env sp_id job_id (collect_groups asg) with ⟨ev4, r⟩
  cases hcg : collect_groups asg with
  | nil =>
    rw [hcg] at hf
    simp [provision_all_users_on_demand_in_app, get_service_principal_id, hsp,
      hspi, get_synchronization_job_id, hjob, hjobi, get_assigned_groups, hgr,
      hcg, truthy_some hspne, truthy_some hjobne]
  | cons g gs =>
    rw [hcg] at hf
    simp [provision_all_users_on_demand_in_app, get_service_principal_id, hsp,
      hspi, get_synchronization_job_id, hjob, hjobi, get_assigned_groups, hgr,
      hcg, truthy_some hspne, truthy_some hjobne, hf]

lemma main_res_ok (env : Env) : (main env).2 = .ok () := by
  unfold main
  rcases h : main_try env with ⟨ev, r⟩
  cases r <;> simp

lemma cli_res_ok (env : Env) : (cli_entry_point env).2 = .ok () := by
  unfold cli_entry_point
  by_cases hflag : strLower (env.run_on_demand.getD "false") = "true"
  · cases htr : truthy env.azure_app_id
    · simp [hflag, htr]
    · rcases h : cli_on_demand_try env (env.azure_app_id.getD "") with ⟨ev, r⟩
      cases r <;> simp [hflag, htr, h]
  · rcases h : main env with ⟨ev, r⟩
    have hm := main_res_ok env
    rw [h] at hm
    rw [if_neg hflag]
    simp only [h]
    simpa using hm

/-- Claim C2: for a service principal whose job listing returns N >= 1
jobs, `get_synchronization_job_id` returns the first element's id,
deterministically regardless of the rest; for an empty listing it returns
`none`, and `main` then terminates without issuing a start-job request. -/
theorem scim_C2 :
    (∀ (env : Env) (sp : String) (j : SyncJob) (rest : List SyncJob),
       env.syncJobs sp = .ok (j :: rest) →
       (get_synchronization_job_id env sp).2 = .ok j.id) ∧
    (∀ (env : Env) (sp : String),
       env.syncJobs sp = .ok [] →
       (get_synchronization_job_id env sp).2 = .ok none) ∧
    (∀ (env : Env) (app_id sp_id : String) (spo : ServicePrincipal)
       (sps : List ServicePrincipal),
       env.azure_app_id = some app_id → app_id ≠ "" →
       env.getClient = .ok () →
       env.servicePrincipals app_id = .ok (spo :: sps) →
       spo.id = some sp_id → sp_id ≠ "" →
       env.syncJobs sp_id = .ok [] →
       (main env).1 = [Event.callGetClient, Event.callGetServicePrincipals app_id,
         Event.callListSyncJobs sp_id, Event.logMainJobNotFound sp_id] ∧
       ∀ s j, Event.callStartJob s j ∉ (main env).1) := by
  refine ⟨?_, ?_, ?_⟩
  · intro env sp j rest h
    simp [get_synchronization_job_id, h]
  · intro env sp h
    simp [get_synchronization_job_id, h]
  · intro env app_id sp_id spo sps happ happne hcl hsp hspi hspne hjobs
    have htrace : (main env).1 = [Event.callGetClient,
        Event.callGetServicePrincipals app_id, Event.callListSyncJobs sp_id,
        Event.logMainJobNotFound sp_id] := by
      unfold main main_try
      simp [happ, truthy_some happne, get_graph_client, hcl,
        get_service_principal_id, hsp, hspi, truthy_some hspne,
        get_synchronization_job_id, hjobs, truthy, happne, hspne]
    refine ⟨htrace, ?_⟩
    intro s j
    rw [htrace]
    simp

/-- Witness for C2 at a concrete environment with an empty job list. -/
theorem scim_C2_witness :
    (main noJobsEnv).1 = [Event.callGetClient,
      Event.callGetServicePrincipals "app-1", Event.callListSyncJobs "sp-1",
      Event.logMainJobNotFound "sp-1"] :=
  (scim_C2.2.2 noJobsEnv "app-1" "sp-1" { id := some "sp-1" } [] rfl
    (by decide) rfl (by decide) rfl (by decide) rfl).1

/-- Claim C3: an empty service-principal result set makes
`get_service_principal_id` return `none`, and both workflows then
terminate with a clean early return issuing no subsequent remote
operation. -/
theorem scim_C3 :
    (∀ (env : Env) (app : String),
       env.servicePrincipals app = .ok [] →
       (get_service_principal_id env app).2 = .ok none) ∧
    (∀ (env : Env) (app_id : String),
       env.azure_app_id = some app_id → app_id ≠ "" →
       env.getClient = .ok () →
       env.servicePrincipals app_id = .ok [] →
       main env = ([Event.callGetClient,
         Event.callGetServicePrincipals app_id,
         Event.logMainSpNotFound app_id], .ok ())) ∧
    (∀ (env : Env) (app : String),
       env.servicePrincipals app = .ok [] →
       provision_all_users_on_demand_in_app env app
         = ([Event.callGetServicePrincipals app,
             Event.logOnDemandSpNotFound app], .ok ())) := by
  refine ⟨?_, ?_, ?_⟩
  · intro env app h
    simp [get_service_principal_id, h]
  · intro env app_id happ happne hcl hsp
    unfold main main_try
    simp [happ, truthy_some happne, get_graph_client, hcl,
      get_service_principal_id, hsp, truthy, happne]
  · intro env app h
    unfold provision_all_users_on_demand_in_app
    simp [get_service_principal_id, h, truthy]

/-- Witness for C3 at a concrete environment with no matching service
principal. -/
theorem scim_C3_witness :
    provision_all_users_on_demand_in_app noSpEnv "app-1"
      = ([Event.callGetServicePrincipals "app-1",
          Event.logOnDemandSpNotFound "app-1"], .ok ()) :=
  scim_C3.2.2 noSpEnv "app-1" rfl

/-- Claim C1: with the resolution steps and every member fetch
succeeding, a failing per-user provisioning trigger is caught at the
innermost scope: whatever the trigger oracle answers, every member
occurrence of every group is attempted exactly once and no error
propagates out of `provision_all_users_on_demand_in_app`. -/
theorem scim_C1 (env : Env) (app_id sp_id job_id : String)
    (spo : ServicePrincipal) (sps : List ServicePrincipal)
    (jo : SyncJob) (jobs : List SyncJob) (asg : List Assignment)
    (hsp : env.servicePrincipals app_id = .ok (spo :: sps))
    (hspi : spo.id = some sp_id) (hspne : sp_id ≠ "")
    (hjob : env.syncJobs sp_id = .ok (jo :: jobs))
    (hjobi : jo.id = some job_id) (hjobne : job_id ≠ "")
    (hgr : env.assignedGroups sp_id = .ok asg)
    (hmem : ∀ g ∈ collect_groups asg, (env.groupMembers g.id).isOk = true) :
    (provision_all_users_on_demand_in_app env app_id).2 = .ok () ∧
    ∀ u, provisionCallsFor (provision_all_users_on_demand_in_app env app_id).1 u
          = occTotal env u (collect_groups asg) := by
  have hred := provision_all_reduce env app_id sp_id job_id spo sps jo jobs asg
    hsp hspi hspne hjob hjobi hjobne hgr
  have hff := fanout_ok_and_filter env sp_id job_id (collect_groups asg) hmem
  cases hcg : collect_groups asg with
  | nil =>
    rw [hcg] at hred
    simp only [List.isEmpty_nil, if_true] at hred
    rw [hred]
    exact ⟨rfl, fun u => by simp [provisionCallsFor, occTotal]⟩
  | cons g gs =>
    rw [hcg] at hred hff
    simp only [List.isEmpty_cons, if_false, Bool.false_eq_true] at hred
    rw [hred]
    refine ⟨hff.1, ?_⟩
    intro u
    have h1 : provisionCallsFor (fanout_groups env sp_id job_id (g :: gs)).1 u
        = occTotal env u (g :: gs) := by
      rw [← provisionCallsFor_filter, hff.2, provisionCallsFor_userCalls]
    simp [provisionCallsFor, h1]

/-- Witness for C1: in `provFailEnv` the trigger fails for u1 yet no
error escapes and u2 (same group) and u3 (later group) are each attempted
exactly once. -/
theorem scim_C1_witness :
    (provision_all_users_on_demand_in_app provFailEnv "app-1").2 = .ok () ∧
    provisionCallsFor (provision_all_users_on_demand_in_app provFailEnv "app-1").1 "u2" = 1 ∧
    provisionCallsFor (provision_all_users_on_demand_in_app provFailEnv "app-1").1 "u3" = 1 := by
  have h := scim_C1 provFailEnv "app-1" "sp-1" "job-1" { id := some "sp-1" } []
    { id := some "job-1" } []
    [{ principal_id := some "g1", principal_display_name := some "Group One" },
     { principal_id := some "g2", principal_display_name := none }]
    (by decide) rfl (by decide) (by decide) rfl (by decide) (by decide) (by decide)
  refine ⟨h.1, ?_, ?_⟩
  · rw [h.2 "u2"]; decide
  · rw [h.2 "u3"]; decide

/-- Claim C4: in the fixed two-group scenario (g1 holds u1, g2 holds u2,
all calls succeed) the fan-out triggers provisioning exactly for u1 and
u2, once each, always passing the fixed object-type tag "User". -/
theorem scim_C4 :
    (provision_all_users_on_demand_in_app happyEnv "app-1").1.filter isProvisionCall
      = [Event.callProvisionOnDemand "sp-1" "job-1" "u1" "User",
         Event.callProvisionOnDemand "sp-1" "job-1" "u2" "User"] := by
  decide

/-- Claim C7: when the filtered group-assignment listing yields zero
groups, the fan-out logs the no-groups message and returns, invoking
neither the member listing nor the provisioning trigger. -/
theorem scim_C7 (env : Env) (app_id sp_id job_id : String)
    (spo : ServicePrincipal) (sps : List ServicePrincipal)
    (jo : SyncJob) (jobs : List SyncJob) (asg : List Assignment)
    (hsp : env.servicePrincipals app_id = .ok (spo :: sps))
    (hspi : spo.id = some sp_id) (hspne : sp_id ≠ "")
    (hjob : env.syncJobs sp_id = .ok (jo :: jobs))
    (hjobi : jo.id = some job_id) (hjobne : job_id ≠ "")
    (hgr : env.assignedGroups sp_id = .ok asg)
    (hnil : collect_groups asg = []) :
    provision_all_users_on_demand_in_app env app_id
      = ([Event.callGetServicePrincipals app_id, Event.callListSyncJobs sp_id,
          Event.callListAssignedGroups sp_id, Event.logNoGroups app_id sp_id],
         .ok ()) ∧
    (∀ g, Event.callListGroupMembers g ∉
        (provision_all_users_on_demand_in_app env app_id).1) ∧
    (∀ e ∈ (provision_all_users_on_demand_in_app env app_id).1,
        isProvisionCall e = false) := by
  have hred := provision_all_reduce env app_id sp_id job_id spo sps jo jobs asg
    hsp hspi hspne hjob hjobi hjobne hgr
  rw [hnil] at hred
  simp only [List.isEmpty_nil, if_true] at hred
  refine ⟨hred, ?_, ?_⟩
  · intro g
    rw [hred]
    simp
  · intro e he
    rw [hred] at he
    simp only [List.mem_cons, List.not_mem_nil, or_false] at he
    rcases he with h | h | h | h <;> subst h <;> rfl

/-- Witness for C7 at a concrete environment with zero group
assignments. -/
theorem scim_C7_witness :
    provision_all_users_on_demand_in_app noGroupsEnv "app-1"
      = ([Event.callGetServicePrincipals "app-1", Event.callListSyncJobs "sp-1",
          Event.callListAssignedGroups "sp-1", Event.logNoGroups "app-1" "sp-1"],
         .ok ()) :=
  (scim_C7 noGroupsEnv "app-1" "sp-1" "job-1" { id := some "sp-1" } []
    { id := some "job-1" } [] [] (by decide) rfl (by decide) (by decide) rfl
    (by decide) (by decide) rfl).1

/-- Claim C9: an error while fetching one group's member list propagates
out of `provision_all_users_on_demand_in_app`, so the failing group's
fetch is the last event and no later group is processed; only the
per-user trigger enjoys catch-and-continue. -/
theorem scim_C9 (env : Env) (app_id sp_id job_id e : String)
    (spo : ServicePrincipal) (sps : List ServicePrincipal)
    (jo : SyncJob) (jobs : List SyncJob) (asg : List Assignment)
    (gs1 gs2 : List GroupInfo) (gbad : GroupInfo)
    (hsp : env.servicePrincipals app_id = .ok (spo :: sps))
    (hspi : spo.id = some sp_id) (hspne : sp_id ≠ "")
    (hjob : env.syncJobs sp_id = .ok (jo :: jobs))
    (hjobi : jo.id = some job_id) (hjobne : job_id ≠ "")
    (hgr : env.assignedGroups sp_id = .ok asg)
    (hsplit : collect_groups asg = gs1 ++ gbad :: gs2)
    (hok1 : ∀ g ∈ gs1, (env.groupMembers g.id).isOk = true)
    (hbad : env.groupMembers gbad.id = .err e) :
    (provision_all_users_on_demand_in_app env app_id).2 = .err e ∧
    (provision_all_users_on_demand_in_app env app_id).1
      = [Event.callGetServicePrincipals app_id, Event.callListSyncJobs sp_id,
         Event.callListAssignedGroups sp_id]
          ++ (fanout_groups env sp_id job_id gs1).1
          ++ [Event.callListGroupMembers gbad.id] := by
  have hred := provision_all_reduce env app_id sp_id job_id spo sps jo jobs asg
    hsp hspi hspne hjob hjobi hjobne hgr
  rw [hsplit] at hred
  have hne : (gs1 ++ gbad :: gs2).isEmpty = false := by
    cases gs1 <;> simp
  rw [hne] at hred
  simp only [if_false, Bool.false_eq_true] at hred
  have happend := fanout_append env sp_id job_id gs1 (gbad :: gs2) hok1
  have hbadfan : fanout_groups env sp_id job_id (gbad :: gs2)
      = ([Event.callListGroupMembers gbad.id], .err e) := by
    simp [fanout_groups, get_group_members, hbad]
  rw [happend, hbadfan] at hred
  rw [hred]
  constructor
  · rfl
  · simp

/-- Witness for C9: in `memErrEnv` the fetch for g2 raises "net"; the
error escapes the fan-out and g3 is never fetched. -/
theorem scim_C9_witness :
    (provision_all_users_on_demand_in_app memErrEnv "app-1").2 = .err "net" ∧
    (provision_all_users_on_demand_in_app memErrEnv "app-1").1
      = [Event.callGetServicePrincipals "app-1", Event.callListSyncJobs "sp-1",
         Event.callListAssignedGroups "sp-1"]
          ++ (fanout_groups memErrEnv "sp-1" "job-1"
                [{ id := "g1", displayName := none }]).1
          ++ [Event.callListGroupMembers "g2"] :=
  scim_C9 memErrEnv "app-1" "sp-1" "job-1" "net" { id := some "sp-1" } []
    { id := some "job-1" } []
    [{ principal_id := some "g1", principal_display_name := none },
     { principal_id := some "g2", principal_display_name := none },
     { principal_id := some "g3", principal_display_name := none }]
    [{ id := "g1", displayName := none }]
    [{ id := "g3", displayName := none }]
    { id := "g2", displayName := none }
    (by decide) rfl (by decide) (by decide) rfl (by decide) (by decide)
    (by decide) (by decide) (by decide)

/-- Claim C10: the fan-out performs no deduplication: with all member
fetches succeeding, the sequence of provisioning calls equals one call per
member occurrence across the groups, in listing order, duplicates
included. -/
theorem scim_C10 (env : Env) (app_id sp_id job_id : String)
    (spo : ServicePrincipal) (sps : List ServicePrincipal)
    (jo : SyncJob) (jobs : List SyncJob) (asg : List Assignment)
    (hsp : env.servicePrincipals app_id = .ok (spo :: sps))
    (hspi : spo.id = some sp_id) (hspne : sp_id ≠ "")
    (hjob : env.syncJobs sp_id = .ok (jo :: jobs))
    (hjobi : jo.id = some job_id) (hjobne : job_id ≠ "")
    (hgr : env.assignedGroups sp_id = .ok asg)
    (hmem : ∀ g ∈ collect_groups asg, (env.groupMembers g.id).isOk = true) :
    (provision_all_users_on_demand_in_app env app_id).1.filter isProvisionCall
      = userCalls env sp_id job_id (collect_groups asg) := by
  have hred := provision_all_reduce env app_id sp_id job_id spo sps jo jobs asg
    hsp hspi hspne hjob hjobi hjobne hgr
  have hff := fanout_ok_and_filter env sp_id job_id (collect_groups asg) hmem
  cases hcg : collect_groups asg with
  | nil =>
    rw [hcg] at hred
    simp only [List.isEmpty_nil, if_true] at hred
    rw [hred]
    rfl
  | cons g gs =>
    rw [hcg] at hred hff
    simp only [List.isEmpty_cons, if_false, Bool.false_eq_true] at hred
    rw [hred]
    simpa [isProvisionCall] using hff.2

/-- Witness for C10: in `dupEnv` the id u1 occurs in g1 and again in g2,
and the trigger fires once per occurrence, in listing order. -/
theorem scim_C10_witness :
    (provision_all_users_on_demand_in_app dupEnv "app-1").1.filter isProvisionCall
      = [Event.callProvisionOnDemand "sp-1" "job-1" "u1" "User",
         Event.callProvisionOnDemand "sp-1" "job-1" "u2" "User",
         Event.callProvisionOnDemand "sp-1" "job-1" "u1" "User"] := by
  rw [scim_C10 dupEnv "app-1" "sp-1" "job-1" { id := some "sp-1" } []
    { id := some "job-1" } []
    [{ principal_id := some "g1", principal_display_name := some "Group One" },
     { principal_id := some "g2", principal_display_name := none }]
    (by decide) rfl (by decide) (by decide) rfl (by decide) (by decide)
    (by decide)]
  decide

/-- Claim C5: every leaf operation re-raises its remote error to the
immediate caller, while `main` and the dispatcher (including its on-demand
branch) catch and suppress everything, so their outcome is always `ok`. -/
theorem scim_C5 :
    (∀ (env : Env) (a e : String), env.servicePrincipals a = .err e →
       (get_service_principal_id env a).2 = .err e) ∧
    (∀ (env : Env) (s e : String), env.syncJobs s = .err e →
       (get_synchronization_job_id env s).2 = .err e) ∧
    (∀ (env : Env) (s j e : String), env.startJob s j = .err e →
       (start_synchronization_job env s j).2 = .err e) ∧
    (∀ (env : Env) (s e : String), env.assignedGroups s = .err e →
       (get_assigned_groups env s).2 = .err e) ∧
    (∀ (env : Env) (g e : String), env.groupMembers g = .err e →
       (get_group_members env g).2 = .err e) ∧
    (∀ (env : Env) (s j u e : String), env.provisionOnDemand s j u "User" = .err e →
       (provision_user_on_demand env s j u).2 = .err e) ∧
    (∀ env : Env, (main env).2 = .ok ()) ∧
    (∀ env : Env, (cli_entry_point env).2 = .ok ()) := by
  refine ⟨?_, ?_, ?_, ?_, ?_, ?_, main_res_ok, cli_res_ok⟩
  · intro env a e h
    simp [get_service_principal_id, h]
  · intro env s e h
    simp [get_synchronization_job_id, h]
  · intro env s j e h
    simp [start_synchronization_job, h]
  · intro env s e h
    simp [get_assigned_groups, h]
  · intro env g e h
    simp [get_group_members, h]
  · intro env s j u e h
    simp [provision_user_on_demand, h]

/-- Witness for C5: a failing service-principal lookup surfaces from the
leaf, yet the dispatcher still finishes cleanly. -/
theorem scim_C5_witness :
    (get_service_principal_id spErrEnv "app-1").2 = .err "boom" ∧
    (cli_entry_point spErrEnv).2 = .ok () :=
  ⟨scim_C5.1 spErrEnv "app-1" "boom" rfl, scim_C5.2.2.2.2.2.2.2 spErrEnv⟩

/-- Claim C6: the dispatcher selects the on-demand workflow iff the flag
(defaulting to "false") lowercases to "true"; otherwise it runs `main`;
in the on-demand branch a falsy app id aborts with a log before any client
acquisition, and a present app id leads to client acquisition followed by
the fan-out. -/
theorem scim_C6 (env : Env) :
    (cli_entry_point env).1.head?
        = some (if strLower (env.run_on_demand.getD "false") = "true"
                then Event.logOnDemandSelected else Event.logMainSelected) ∧
    (strLower (env.run_on_demand.getD "false") ≠ "true" →
       cli_entry_point env
         = (Event.logMainSelected :: (main env).1, (main env).2)) ∧
    (strLower (env.run_on_demand.getD "false") = "true" →
       truthy env.azure_app_id = false →
       cli_entry_point env
         = ([Event.logOnDemandSelected, Event.logCliMissingAppId], .ok ())) ∧
    (strLower (env.run_on_demand.getD "false") = "true" →
       truthy env.azure_app_id = true → env.getClient = .ok () →
       (cli_entry_point env).1
         = Event.logOnDemandSelected :: Event.callGetClient ::
             ((provision_all_users_on_demand_in_app env (env.azure_app_id.getD "")).1
               ++ match (provision_all_users_on_demand_in_app env
                          (env.azure_app_id.getD "")).2 with
                  | .ok _ => []
                  | .err e => [Event.logOnDemandTopError e])) := by
  refine ⟨?_, ?_, ?_, ?_⟩
  · by_cases hflag : strLower (env.run_on_demand.getD "false") = "true"
    · rw [if_pos hflag]
      unfold cli_entry_point
      rw [if_pos hflag]
      cases htr : truthy env.azure_app_id
      · simp
      · rcases h : cli_on_demand_try env (env.azure_app_id.getD "") with ⟨ev, r⟩
        cases r <;> simp [h]
    · rw [if_neg hflag]
      unfold cli_entry_point
      rw [if_neg hflag]
      rcases h : main env with ⟨ev, r⟩
      simp [h]
  · intro hflag
    unfold cli_entry_point
    rw [if_neg hflag]
  · intro hflag htr
    unfold cli_entry_point
    rw [if_pos hflag]
    simp [htr]
  · intro hflag htr hcl
    unfold cli_entry_point cli_on_demand_try
    rw [if_pos hflag]
    rcases hp : provision_all_users_on_demand_in_app env (env.azure_app_id.getD "")
      with ⟨ev2, r⟩
    cases r <;> simp [htr, get_graph_client, hcl, hp]

/-- Witness for C6: in `happyEnv` the flag is "true" and the app id is
present, so the dispatcher acquires the client and invokes the fan-out. -/
theorem scim_C6_witness :
    (cli_entry_point happyEnv).1
      = Event.logOnDemandSelected :: Event.callGetClient ::
          ((provision_all_users_on_demand_in_app happyEnv
              (happyEnv.azure_app_id.getD "")).1
            ++ match (provision_all_users_on_demand_in_app happyEnv
                       (happyEnv.azure_app_id.getD "")).2 with
               | .ok _ => []
               | .err e => [Event.logOnDemandTopError e]) :=
  (scim_C6 happyEnv).2.2.2 (by decide) (by decide) rfl

/-- Claim C8: when the application-identifier configuration is absent or
empty, whichever branch the dispatcher takes logs the missing-app-id error
and returns before any remote operation. -/
theorem scim_C8 (env : Env) (h : truthy env.azure_app_id = false) :
    (∀ e ∈ (cli_entry_point env).1, isRemoteCall e = false) ∧
    (strLower (env.run_on_demand.getD "false") = "true" →
       (cli_entry_point env).1
         = [Event.logOnDemandSelected, Event.logCliMissingAppId]) ∧
    (strLower (env.run_on_demand.getD "false") ≠ "true" →
       (cli_entry_point env).1
         = [Event.logMainSelected, Event.logMainMissingAppId]) := by
  have hmain : main env = ([Event.logMainMissingAppId], .ok ()) := by
    unfold main main_try
    simp [h]
  have htr : ∀ hf : Prop, (cli_entry_point env).1
      = if strLower (env.run_on_demand.getD "false") = "true"
        then [Event.logOnDemandSelected, Event.logCliMissingAppId]
        else [Event.logMainSelected, Event.logMainMissingAppId] := by
    intro _
    unfold cli_entry_point
    by_cases hflag : strLower (env.run_on_demand.getD "false") = "true"
    · rw [if_pos hflag, if_pos hflag]
      simp [h]
    · rw [if_neg hflag, if_neg hflag]
      simp [hmain]
  refine ⟨?_, ?_, ?_⟩
  · intro e he
    rw [htr True] at he
    by_cases hflag : strLower (env.run_on_demand.getD "false") = "true"
    · rw [if_pos hflag] at he
      simp only [List.mem_cons, List.not_mem_nil, or_false] at he
      rcases he with h1 | h1 <;> subst h1 <;> rfl
    · rw [if_neg hflag] at he
      simp only [List.mem_cons, List.not_mem_nil, or_false] at he
      rcases he with h1 | h1 <;> subst h1 <;> rfl
  · intro hflag
    rw [htr True, if_pos hflag]
  · intro hflag
    rw [htr True, if_neg hflag]

/-- Witness for C8: with the app id unset and the flag unset, the main
branch aborts immediately after logging. -/
theorem scim_C8_witness :
    (cli_entry_point noAppEnv).1
      = [Event.logMainSelected, Event.logMainMissingAppId] :=
  (scim_C8 noAppEnv rfl).2.2 (by decide)

end ScimSyncer
